import Mathlib

/-!
# Verification of the shapeDNA FEM assembly and fsqc utility functions

Shallow embedding of the Python sources `fs_shapeDNA.py` (triangle and
tetrahedral Laplace-Beltrami FEM assembly `computeABtria` / `computeABtetra`,
and the eigensolver entry points `laplaceTria` / `laplaceTetra`) and
`fsqc/fsqcUtils.py` (`importMGH`, `readLTA`, `applyTransform`).

Floating-point arithmetic of the source is modelled by exact real arithmetic
(`ℝ`); machine integers by `Int`/`Nat`; Python exceptions by `Except`.
Vertex indices of a mesh of `n` vertices are modelled as `Fin n`, which is the
"in-bounds indices" precondition of the specification.  Sparse COO matrix
construction (`scipy.sparse.csc_matrix((data, (I, J)))`, which sums duplicate
coordinates) is modelled by an additive scatter function: the matrix entry at
`(i, j)` is the sum of all scattered values whose coordinates equal `(i, j)`.
-/

/-! ## 3-vectors (rows of the numpy coordinate arrays) -/

/-- A 3-D coordinate (one row of the `v` array). -/
abbrev V3 : Type := ℝ × ℝ × ℝ

/-- Componentwise difference of 3-vectors (numpy `a - b` on rows). -/
def vsub (a b : V3) : V3 := (a.1 - b.1, a.2.1 - b.2.1, a.2.2 - b.2.2)

/-- Dot product (numpy `np.sum(a*b, axis=1)` on one row). -/
def dot3 (a b : V3) : ℝ := a.1 * b.1 + a.2.1 * b.2.1 + a.2.2 * b.2.2

/-- Cross product (numpy `np.cross` on one row). -/
def cross3 (a b : V3) : V3 :=
  (a.2.1 * b.2.2 - a.2.2 * b.2.1,
   a.2.2 * b.1 - a.1 * b.2.2,
   a.1 * b.2.1 - a.2.1 * b.1)

/-! ## Additive COO scatter

`scipy.sparse.csc_matrix((data, (I, J)))` sums all data values having the same
`(row, col)` coordinate pair.  Every element (triangle / tetrahedron)
contributes a fixed pattern of coordinate/value tuples; off-diagonal local
values are scattered twice (at `(a,b)` and `(b,a)`), local diagonal values
once.  `pairEntry i j a b x` is the contribution of the symmetric pair of
tuples `(a,b,x), (b,a,x)` to global entry `(i,j)`; `diagEntry i j a x` is the
contribution of the single tuple `(a,a,x)`. -/

/-- Contribution of the scattered pair `(a,b,x)`, `(b,a,x)` to entry `(i,j)`. -/
def pairEntry {n : ℕ} (i j a b : Fin n) (x : ℝ) : ℝ :=
  (if a = i ∧ b = j then x else 0) + (if b = i ∧ a = j then x else 0)

/-- Contribution of the scattered tuple `(a,a,x)` to entry `(i,j)`. -/
def diagEntry {n : ℕ} (i j a : Fin n) (x : ℝ) : ℝ :=
  if a = i ∧ a = j then x else 0

/-! ## Triangle assembly: `computeABtria` (fs_shapeDNA.py lines 899-980)

For each triangle `(t1,t2,t3)` the code computes the edge differences
`v2mv1 = v2-v1`, `v3mv2 = v3-v2`, `v1mv3 = v1-v3`, the cross product
`cr = np.cross(v3mv2, v1mv3)` and `vol = 2*sqrt(cr·cr)` (the "4×area"
quantity), replaces every `vol` entry below `sys.float_info.epsilon` by
`0.0001*mean(vol)`, and scatters the 9 local stiffness values and the
local mass values. -/

/-- `sys.float_info.epsilon` (IEEE-754 double machine epsilon, `2⁻⁵²`). -/
noncomputable def epsFloat : ℝ := 1 / 2 ^ 52

/-- `cr = np.cross(v3mv2, v1mv3)` for one triangle: `v3mv2 = v3 - v2` and
`v1mv3 = v1 - v3`. -/
def triCross {n : ℕ} (v : Fin n → V3) (tri : Fin n × Fin n × Fin n) : V3 :=
  cross3 (vsub (v tri.2.2) (v tri.2.1)) (vsub (v tri.1) (v tri.2.2))

/-- `vol = 2 * np.sqrt(np.sum(cr*cr, axis=1))` for one triangle (4×area). -/
noncomputable def triVol {n : ℕ} (v : Fin n → V3) (tri : Fin n × Fin n × Fin n) : ℝ :=
  2 * Real.sqrt (dot3 (triCross v tri) (triCross v tri))

/-- `vol_mean = 0.0001 * np.mean(vol)` (mean over the raw, unguarded vols). -/
noncomputable def triVolMean {n : ℕ} (v : Fin n → V3)
    (t : List (Fin n × Fin n × Fin n)) : ℝ :=
  0.0001 * (((t.map (triVol v)).sum) / (t.length : ℝ))

/-- `vol[vol < sys.float_info.epsilon] = vol_mean`: the guarded divisor of
one triangle. -/
noncomputable def triVolGuard {n : ℕ} (v : Fin n → V3)
    (t : List (Fin n × Fin n × Fin n)) (tri : Fin n × Fin n × Fin n) : ℝ :=
  if triVol v tri < epsFloat then triVolMean v t else triVol v tri

/-- `A12 = np.sum(v3mv2*v1mv3, axis=1) / vol` (local cotangent value, `vol`
is the guarded divisor of the triangle). -/
noncomputable def triA12 {n : ℕ} (v : Fin n → V3) (tri : Fin n × Fin n × Fin n)
    (gvol : ℝ) : ℝ :=
  dot3 (vsub (v tri.2.2) (v tri.2.1)) (vsub (v tri.1) (v tri.2.2)) / gvol

/-- `A23 = np.sum(v1mv3*v2mv1, axis=1) / vol`. -/
noncomputable def triA23 {n : ℕ} (v : Fin n → V3) (tri : Fin n × Fin n × Fin n)
    (gvol : ℝ) : ℝ :=
  dot3 (vsub (v tri.1) (v tri.2.2)) (vsub (v tri.2.1) (v tri.1)) / gvol

/-- `A31 = np.sum(v2mv1*v3mv2, axis=1) / vol`. -/
noncomputable def triA31 {n : ℕ} (v : Fin n → V3) (tri : Fin n × Fin n × Fin n)
    (gvol : ℝ) : ℝ :=
  dot3 (vsub (v tri.2.1) (v tri.1)) (vsub (v tri.2.2) (v tri.2.1)) / gvol

/-- `A11 = -A12 - A31` (local diagonal, from row sum = 0). -/
noncomputable def triA11 {n : ℕ} (v : Fin n → V3) (tri : Fin n × Fin n × Fin n)
    (gvol : ℝ) : ℝ := -triA12 v tri gvol - triA31 v tri gvol

/-- `A22 = -A12 - A23`. -/
noncomputable def triA22 {n : ℕ} (v : Fin n → V3) (tri : Fin n × Fin n × Fin n)
    (gvol : ℝ) : ℝ := -triA12 v tri gvol - triA23 v tri gvol

/-- `A33 = -A31 - A23`. -/
noncomputable def triA33 {n : ℕ} (v : Fin n → V3) (tri : Fin n × Fin n × Fin n)
    (gvol : ℝ) : ℝ := -triA31 v tri gvol - triA23 v tri gvol

/-- Contribution of one triangle to stiffness entry `(i,j)`: the 9 scattered
tuples `localA` at coordinates
`I = (t1,t2,t2,t3,t3,t1,t1,t2,t3)`, `J = (t2,t1,t3,t2,t1,t3,t1,t2,t3)`. -/
noncomputable def triLocalA {n : ℕ} (v : Fin n → V3) (tri : Fin n × Fin n × Fin n)
    (gvol : ℝ) (i j : Fin n) : ℝ :=
  pairEntry i j tri.1 tri.2.1 (triA12 v tri gvol) +
  pairEntry i j tri.2.1 tri.2.2 (triA23 v tri gvol) +
  pairEntry i j tri.2.2 tri.1 (triA31 v tri gvol) +
  diagEntry i j tri.1 (triA11 v tri gvol) +
  diagEntry i j tri.2.1 (triA22 v tri gvol) +
  diagEntry i j tri.2.2 (triA33 v tri gvol)

/-- Contribution of one triangle to the non-lumped mass entry `(i,j)`:
`Bii = vol/24` on the three local diagonal positions, `Bij = vol/48` on the
six off-diagonal positions (same `I`, `J` coordinates as the stiffness). -/
noncomputable def triLocalB {n : ℕ} (tri : Fin n × Fin n × Fin n)
    (gvol : ℝ) (i j : Fin n) : ℝ :=
  pairEntry i j tri.1 tri.2.1 (gvol / 48) +
  pairEntry i j tri.2.1 tri.2.2 (gvol / 48) +
  pairEntry i j tri.2.2 tri.1 (gvol / 48) +
  diagEntry i j tri.1 (gvol / 24) +
  diagEntry i j tri.2.1 (gvol / 24) +
  diagEntry i j tri.2.2 (gvol / 24)

/-- Contribution of one triangle to the lumped mass entry `(i,j)`:
`Bii = vol/12`, scattered at `(t1,t1)`, `(t2,t2)`, `(t3,t3)` only. -/
noncomputable def triLocalBlump {n : ℕ} (tri : Fin n × Fin n × Fin n)
    (gvol : ℝ) (i j : Fin n) : ℝ :=
  diagEntry i j tri.1 (gvol / 12) +
  diagEntry i j tri.2.1 (gvol / 12) +
  diagEntry i j tri.2.2 (gvol / 12)

/-- `computeABtria(v, t, lump)`: the pair of assembled matrices `(A, B)`,
each given as its entry function `(i, j) ↦` sum of all scattered
contributions at `(i, j)`. -/
noncomputable def computeABtria {n : ℕ} (v : Fin n → V3)
    (t : List (Fin n × Fin n × Fin n)) (lump : Bool) :
    (Fin n → Fin n → ℝ) × (Fin n → Fin n → ℝ) :=
  (fun i j => (t.map (fun tri => triLocalA v tri (triVolGuard v t tri) i j)).sum,
   fun i j => (t.map (fun tri =>
      if lump then triLocalBlump tri (triVolGuard v t tri) i j
      else triLocalB tri (triVolGuard v t tri) i j)).sum)

/-! ## Tetrahedral assembly: `computeABtetra` (fs_shapeDNA.py lines 982-1096)

Edges per tetrahedron `(t1,t2,t3,t4)`: `e1 = v2-v1`, `e2 = v3-v2`,
`e3 = v1-v3`, `e4 = v4-v1`, `e5 = v4-v2`, `e6 = v4-v3`;
`vol = |np.sum(e4 * np.cross(e1,e3), axis=1)|` (6×volume); the guard replaces
entries with `vol == 0` by `0.0001*mean(vol)`; the local stiffness values are
built from the pairwise edge dot products `eXY` and the flattened `localA`
array is divided by `6.0` before scattering. -/

/-- A tetrahedron: ordered quadruple of vertex indices. -/
abbrev Tet (n : ℕ) : Type := Fin n × Fin n × Fin n × Fin n

/-- `e1 = v2 - v1`. -/
def tetE1 {n : ℕ} (v : Fin n → V3) (tet : Tet n) : V3 := vsub (v tet.2.1) (v tet.1)

/-- `e2 = v3 - v2`. -/
def tetE2 {n : ℕ} (v : Fin n → V3) (tet : Tet n) : V3 := vsub (v tet.2.2.1) (v tet.2.1)

/-- `e3 = v1 - v3`. -/
def tetE3 {n : ℕ} (v : Fin n → V3) (tet : Tet n) : V3 := vsub (v tet.1) (v tet.2.2.1)

/-- `e4 = v4 - v1`. -/
def tetE4 {n : ℕ} (v : Fin n → V3) (tet : Tet n) : V3 := vsub (v tet.2.2.2) (v tet.1)

/-- `e5 = v4 - v2`. -/
def tetE5 {n : ℕ} (v : Fin n → V3) (tet : Tet n) : V3 := vsub (v tet.2.2.2) (v tet.2.1)

/-- `e6 = v4 - v3`. -/
def tetE6 {n : ℕ} (v : Fin n → V3) (tet : Tet n) : V3 := vsub (v tet.2.2.2) (v tet.2.2.1)

/-- `vol = np.abs(np.sum(e4 * np.cross(e1, e3), axis=1))` (6×volume). -/
noncomputable def tetVol {n : ℕ} (v : Fin n → V3) (tet : Tet n) : ℝ :=
  |dot3 (tetE4 v tet) (cross3 (tetE1 v tet) (tetE3 v tet))|

/-- `vol_mean = 0.0001 * np.mean(vol)`. -/
noncomputable def tetVolMean {n : ℕ} (v : Fin n → V3) (t : List (Tet n)) : ℝ :=
  0.0001 * (((t.map (tetVol v)).sum) / (t.length : ℝ))

/-- `vol[vol == 0] = vol_mean`: the guarded divisor of one tetrahedron. -/
noncomputable def tetVolGuard {n : ℕ} (v : Fin n → V3) (t : List (Tet n)) (tet : Tet n) : ℝ :=
  if tetVol v tet = 0 then tetVolMean v t else tetVol v tet

/-- `A12 = (- e36 * e26 + e23 * e66) / vol`. -/
noncomputable def tetA12 {n : ℕ} (v : Fin n → V3) (tet : Tet n) (gvol : ℝ) : ℝ :=
  (-(dot3 (tetE3 v tet) (tetE6 v tet) * dot3 (tetE2 v tet) (tetE6 v tet)) +
    dot3 (tetE2 v tet) (tetE3 v tet) * dot3 (tetE6 v tet) (tetE6 v tet)) / gvol

/-- `A13 = (- e15 * e25 + e12 * e55) / vol`. -/
noncomputable def tetA13 {n : ℕ} (v : Fin n → V3) (tet : Tet n) (gvol : ℝ) : ℝ :=
  (-(dot3 (tetE1 v tet) (tetE5 v tet) * dot3 (tetE2 v tet) (tetE5 v tet)) +
    dot3 (tetE1 v tet) (tetE2 v tet) * dot3 (tetE5 v tet) (tetE5 v tet)) / gvol

/-- `A14 = (e23 * e26 - e36 * e22) / vol`. -/
noncomputable def tetA14 {n : ℕ} (v : Fin n → V3) (tet : Tet n) (gvol : ℝ) : ℝ :=
  (dot3 (tetE2 v tet) (tetE3 v tet) * dot3 (tetE2 v tet) (tetE6 v tet) -
    dot3 (tetE3 v tet) (tetE6 v tet) * dot3 (tetE2 v tet) (tetE2 v tet)) / gvol

/-- `A23 = (- e14 * e34 + e13 * e44) / vol`. -/
noncomputable def tetA23 {n : ℕ} (v : Fin n → V3) (tet : Tet n) (gvol : ℝ) : ℝ :=
  (-(dot3 (tetE1 v tet) (tetE4 v tet) * dot3 (tetE3 v tet) (tetE4 v tet)) +
    dot3 (tetE1 v tet) (tetE3 v tet) * dot3 (tetE4 v tet) (tetE4 v tet)) / gvol

/-- `A24 = (e13 * e34 - e14 * e33) / vol`. -/
noncomputable def tetA24 {n : ℕ} (v : Fin n → V3) (tet : Tet n) (gvol : ℝ) : ℝ :=
  (dot3 (tetE1 v tet) (tetE3 v tet) * dot3 (tetE3 v tet) (tetE4 v tet) -
    dot3 (tetE1 v tet) (tetE4 v tet) * dot3 (tetE3 v tet) (tetE3 v tet)) / gvol

/-- `A34 = (- e14 * e13 + e11 * e34) / vol`. -/
noncomputable def tetA34 {n : ℕ} (v : Fin n → V3) (tet : Tet n) (gvol : ℝ) : ℝ :=
  (-(dot3 (tetE1 v tet) (tetE4 v tet) * dot3 (tetE1 v tet) (tetE3 v tet)) +
    dot3 (tetE1 v tet) (tetE1 v tet) * dot3 (tetE3 v tet) (tetE4 v tet)) / gvol

/-- `A11 = -A12 - A13 - A14` (local diagonal, from row sum = 0). -/
noncomputable def tetA11 {n : ℕ} (v : Fin n → V3) (tet : Tet n) (gvol : ℝ) : ℝ :=
  -tetA12 v tet gvol - tetA13 v tet gvol - tetA14 v tet gvol

/-- `A22 = -A12 - A23 - A24`. -/
noncomputable def tetA22 {n : ℕ} (v : Fin n → V3) (tet : Tet n) (gvol : ℝ) : ℝ :=
  -tetA12 v tet gvol - tetA23 v tet gvol - tetA24 v tet gvol

/-- `A33 = -A13 - A23 - A34`. -/
noncomputable def tetA33 {n : ℕ} (v : Fin n → V3) (tet : Tet n) (gvol : ℝ) : ℝ :=
  -tetA13 v tet gvol - tetA23 v tet gvol - tetA34 v tet gvol

/-- `A44 = -A14 - A24 - A34`. -/
noncomputable def tetA44 {n : ℕ} (v : Fin n → V3) (tet : Tet n) (gvol : ℝ) : ℝ :=
  -tetA14 v tet gvol - tetA24 v tet gvol - tetA34 v tet gvol

/-- Contribution of one tetrahedron to stiffness entry `(i,j)`: the 16
scattered tuples `localA.flatten()/6.0` at coordinates
`I = (t1,t2,t2,t3,t3,t1,t1,t4,t2,t4,t3,t4,t1,t2,t3,t4)`,
`J = (t2,t1,t3,t2,t1,t3,t4,t1,t4,t2,t4,t3,t1,t2,t3,t4)`. -/
noncomputable def tetLocalA {n : ℕ} (v : Fin n → V3) (tet : Tet n) (gvol : ℝ) (i j : Fin n) : ℝ :=
  pairEntry i j tet.1 tet.2.1 (tetA12 v tet gvol / 6) +
  pairEntry i j tet.2.1 tet.2.2.1 (tetA23 v tet gvol / 6) +
  pairEntry i j tet.2.2.1 tet.1 (tetA13 v tet gvol / 6) +
  pairEntry i j tet.1 tet.2.2.2 (tetA14 v tet gvol / 6) +
  pairEntry i j tet.2.1 tet.2.2.2 (tetA24 v tet gvol / 6) +
  pairEntry i j tet.2.2.1 tet.2.2.2 (tetA34 v tet gvol / 6) +
  diagEntry i j tet.1 (tetA11 v tet gvol / 6) +
  diagEntry i j tet.2.1 (tetA22 v tet gvol / 6) +
  diagEntry i j tet.2.2.1 (tetA33 v tet gvol / 6) +
  diagEntry i j tet.2.2.2 (tetA44 v tet gvol / 6)

/-- Contribution of one tetrahedron to the non-lumped mass entry `(i,j)`:
`Bii = vol/60` on the four local diagonal positions, `Bij = vol/120` on the
twelve off-diagonal positions. -/
noncomputable def tetLocalB {n : ℕ} (tet : Tet n) (gvol : ℝ) (i j : Fin n) : ℝ :=
  pairEntry i j tet.1 tet.2.1 (gvol / 120) +
  pairEntry i j tet.2.1 tet.2.2.1 (gvol / 120) +
  pairEntry i j tet.2.2.1 tet.1 (gvol / 120) +
  pairEntry i j tet.1 tet.2.2.2 (gvol / 120) +
  pairEntry i j tet.2.1 tet.2.2.2 (gvol / 120) +
  pairEntry i j tet.2.2.1 tet.2.2.2 (gvol / 120) +
  diagEntry i j tet.1 (gvol / 60) +
  diagEntry i j tet.2.1 (gvol / 60) +
  diagEntry i j tet.2.2.1 (gvol / 60) +
  diagEntry i j tet.2.2.2 (gvol / 60)

/-- Contribution of one tetrahedron to the lumped mass entry `(i,j)`:
`Bii = vol/24`, scattered at the four local diagonal positions only. -/
noncomputable def tetLocalBlump {n : ℕ} (tet : Tet n) (gvol : ℝ) (i j : Fin n) : ℝ :=
  diagEntry i j tet.1 (gvol / 24) +
  diagEntry i j tet.2.1 (gvol / 24) +
  diagEntry i j tet.2.2.1 (gvol / 24) +
  diagEntry i j tet.2.2.2 (gvol / 24)

/-- `computeABtetra(v, t, lump)`: the pair of assembled matrices `(A, B)`. -/
noncomputable def computeABtetra {n : ℕ} (v : Fin n → V3) (t : List (Tet n)) (lump : Bool) :
    (Fin n → Fin n → ℝ) × (Fin n → Fin n → ℝ) :=
  (fun i j => (t.map (fun tet => tetLocalA v tet (tetVolGuard v t tet) i j)).sum,
   fun i j => (t.map (fun tet =>
      if lump then tetLocalBlump tet (tetVolGuard v t tet) i j
      else tetLocalB tet (tetVolGuard v t tet) i j)).sum)

/-! ## Eigensolver entry points: `laplaceTria` / `laplaceTetra`
(fs_shapeDNA.py lines 833-898)

Both functions assemble `(A, M)`, factorize the shifted matrix
`A - sigma*M` with `sigma = -0.01` (via `sksparse.cholmod.cholesky` when that
package imports, else `scipy.sparse.linalg.splu`), wrap the factorization as
a `LinearOperator` `OPinv`, and call
`eigsh(A, k, M, sigma=sigma, OPinv=OPinv)`.  Neither function validates `k`
itself.  The external factorizations are modelled by their mathematical
contract (application of the inverse of the factorized matrix); the external
`eigsh` is modelled by its documented ARPACK parameter validation
(`ValueError` unless `0 < k < n`), its numerical output being external to
this repository. -/

/-- Steps of a `laplaceTria` / `laplaceTetra` invocation, in program order. -/
inductive SolverEvent
  | assembleAB
  | factorizeShift
  | callEigsh
deriving DecidableEq

/-- Errors at the solver entry points.  `invalidParameterError` is the
error class named by the specification; `scipyValueError` is the
`ValueError` that scipy's `eigsh` raises on a bad `k`; `numpyIndexError` is
the `IndexError` that `t1 = t[:, 0]` raises inside the assembly when the
cell list is empty (`np.array([])` is 1-dimensional). -/
inductive SolverError
  | invalidParameterError
  | scipyValueError
  | numpyIndexError
deriving DecidableEq

/-- `sigma = -0.01`, the fixed shift. -/
noncomputable def sigmaShift : ℝ := -0.01

/-- Model of `sksparse.cholmod.cholesky(S)` used as an operator: applies
`S⁻¹` (external sparse Cholesky factorization, exact-arithmetic contract). -/
noncomputable def choleskySolve {m : ℕ} (S : Matrix (Fin m) (Fin m) ℝ) :
    (Fin m → ℝ) → (Fin m → ℝ) :=
  fun x => S⁻¹.mulVec x

/-- Model of `scipy.sparse.linalg.splu(S).solve`: applies `S⁻¹` (external
sparse LU factorization, exact-arithmetic contract). -/
noncomputable def spluSolve {m : ℕ} (S : Matrix (Fin m) (Fin m) ℝ) :
    (Fin m → ℝ) → (Fin m → ℝ) :=
  fun x => S⁻¹.mulVec x

/-- Everything a `laplaceTria` / `laplaceTetra` invocation does up to and
including the `eigsh` call.  `events` lists the stages the invocation
actually completes, in program order, and `outcome` is the first error it
raises (or `ok` when the parameter validation of `eigsh` passes); the
remaining fields hold the model's values of the assembled matrices and of
the factorized-inverse operator `OPinv`, which are mathematically defined
for every input even when the recorded control flow stops earlier. -/
structure LaplaceRun (m : ℕ) where
  events : List SolverEvent
  A : Matrix (Fin m) (Fin m) ℝ
  M : Matrix (Fin m) (Fin m) ℝ
  kArg : ℕ
  sigmaArg : ℝ
  OPinv : (Fin m → ℝ) → (Fin m → ℝ)
  outcome : Except SolverError Unit

/-- The argument tuple `(A, k, M, sigma, OPinv)` of the
`eigsh(A, k, M, sigma=sigma, OPinv=OPinv)` call of a run. -/
def eigshArgs {m : ℕ} (r : LaplaceRun m) :
    Matrix (Fin m) (Fin m) ℝ × ℕ × Matrix (Fin m) (Fin m) ℝ × ℝ ×
      ((Fin m → ℝ) → (Fin m → ℝ)) :=
  (r.A, r.kArg, r.M, r.sigmaArg, r.OPinv)

/-- `laplaceTria(v, t, k, lump)`.  `useCholmod` records whether
`sksparse.cholmod` imported successfully (an environment fact).  On an empty
triangle list the source crashes inside `computeABtria` with an
`IndexError` (`t1 = t[:, 0]` on the 1-dimensional `np.array([])`, before
assembly completes), so no stage is recorded and neither the factorization
nor `eigsh` is reached; otherwise assembly, the shifted factorization and
the `eigsh` call all occur, and the outcome is `eigsh`'s parameter
validation. -/
noncomputable def laplaceTria {n : ℕ} (useCholmod : Bool) (v : Fin n → V3)
    (t : List (Fin n × Fin n × Fin n)) (k : ℕ) (lump : Bool) : LaplaceRun n :=
  let AM := computeABtria v t lump
  let A : Matrix (Fin n) (Fin n) ℝ := Matrix.of AM.1
  let M : Matrix (Fin n) (Fin n) ℝ := Matrix.of AM.2
  let S := A - sigmaShift • M
  { events := if t.isEmpty then []
      else [SolverEvent.assembleAB, SolverEvent.factorizeShift, SolverEvent.callEigsh]
    A := A
    M := M
    kArg := k
    sigmaArg := sigmaShift
    OPinv := if useCholmod then choleskySolve S else spluSolve S
    outcome := if t.isEmpty then Except.error SolverError.numpyIndexError
      else if 0 < k ∧ k < n then Except.ok ()
      else Except.error SolverError.scipyValueError }

/-- `laplaceTetra(v, t, k, lump)`; the same empty-cell-list `IndexError`
path as `laplaceTria` (`t1 = t[:, 0]` inside `computeABtetra`). -/
noncomputable def laplaceTetra {n : ℕ} (useCholmod : Bool) (v : Fin n → V3)
    (t : List (Tet n)) (k : ℕ) (lump : Bool) : LaplaceRun n :=
  let AM := computeABtetra v t lump
  let A : Matrix (Fin n) (Fin n) ℝ := Matrix.of AM.1
  let M : Matrix (Fin n) (Fin n) ℝ := Matrix.of AM.2
  let S := A - sigmaShift • M
  { events := if t.isEmpty then []
      else [SolverEvent.assembleAB, SolverEvent.factorizeShift, SolverEvent.callEigsh]
    A := A
    M := M
    kArg := k
    sigmaArg := sigmaShift
    OPinv := if useCholmod then choleskySolve S else spluSolve S
    outcome := if t.isEmpty then Except.error SolverError.numpyIndexError
      else if 0 < k ∧ k < n then Except.ok ()
      else Except.error SolverError.scipyValueError }

/-! ## Definitions following the specification's words (for the refinement
claims about local stiffness and mass coefficients) -/

/-- The specification's stiffness formula for the off-diagonal entry of edge
`(i,j)` of a tetrahedron: with `s`, `e` the endpoints of the opposing edge,
`ek = e - s`, `el = vi - s`, `em = vj - s`, the entry is
`((el·ek)(em·ek) − (el·em)(ek·ek)) / (6·volume-proxy)`. -/
noncomputable def specTetraStiffness (vi vj s e : V3) (gvol : ℝ) : ℝ :=
  (dot3 (vsub vi s) (vsub e s) * dot3 (vsub vj s) (vsub e s) -
    dot3 (vsub vi s) (vsub vj s) * dot3 (vsub e s) (vsub e s)) / (6 * gvol)

/-- The specification's per-triangle consistent (non-lumped) mass
contribution: `(4×area)/24` on the three local diagonal positions and
`(4×area)/48` on the six off-diagonal positions. -/
noncomputable def specTriaMassConsistent {n : ℕ} (tri : Fin n × Fin n × Fin n)
    (vol4 : ℝ) (i j : Fin n) : ℝ :=
  diagEntry i j tri.1 (vol4 / 24) +
  diagEntry i j tri.2.1 (vol4 / 24) +
  diagEntry i j tri.2.2 (vol4 / 24) +
  pairEntry i j tri.1 tri.2.1 (vol4 / 48) +
  pairEntry i j tri.2.1 tri.2.2 (vol4 / 48) +
  pairEntry i j tri.2.2 tri.1 (vol4 / 48)

/-- The specification's per-triangle lumped mass contribution to diagonal
entry `(i,i)`: one additive contribution of `(4×area)/12` per vertex slot of
the triangle. -/
noncomputable def specTriaMassLumpDiag {n : ℕ} (tri : Fin n × Fin n × Fin n)
    (vol4 : ℝ) (i : Fin n) : ℝ :=
  (if tri.1 = i then vol4 / 12 else 0) +
  (if tri.2.1 = i then vol4 / 12 else 0) +
  (if tri.2.2 = i then vol4 / 12 else 0)

/-! ## fsqc/fsqcUtils.py: Python runtime modelling

Python exceptions are modelled by `PyErr`; text is `String`, file bytes are
`List UInt8`.  The string operations used by `importMGH` / `readLTA` /
`applyTransform` are implemented on the character list of a `String`. -/

/-- Python exceptions raised (or raisable) by the modelled functions. -/
inductive PyErr
  | exception (msg : String)
  | keyError (key : String)
  | valueError (msg : String)
  | unboundLocalError (name : String)
  | structError
  | attributeError
  | indexError
deriving DecidableEq

deriving instance DecidableEq for Except

/-- Rebuild a string from characters. -/
def ofChars (cs : List Char) : String := String.mk cs

/-- `re.match(pat, s) is not None` for a pattern that is a literal string:
true iff `pat` is a prefix of `s`. -/
def pyMatchLit (pat s : String) : Bool := pat.data.isPrefixOf s.data

/-- `re.sub("#.*", "", s)` on a single line (no interior newlines): drop
everything from the first `#` on. -/
def subHashComment (s : String) : String := ofChars (s.data.takeWhile (fun c => c ≠ '#'))

/-- `re.sub("[a-z]+", "", s)`: drop all lowercase ASCII letters. -/
def subLowercase (s : String) : String :=
  ofChars (s.data.filter (fun c => !('a' ≤ c && c ≤ 'z')))

/-- `re.sub("=", "", s)`: drop all `=` characters. -/
def subEquals (s : String) : String := ofChars (s.data.filter (fun c => c ≠ '='))

/-- `re.sub(".*=", "", s)` on a single line: greedy, so everything up to and
including the last `=` is dropped; if there is no `=` the line is unchanged. -/
def subUpToEq (s : String) : String :=
  if s.data.contains '=' then ofChars ((s.data.reverse.takeWhile (fun c => c ≠ '=')).reverse)
  else s

/-- Python `str.strip()`. -/
def pyStrip (s : String) : String :=
  ofChars (((s.data.dropWhile Char.isWhitespace).reverse.dropWhile Char.isWhitespace).reverse)

/-- Helper of `pySplitSpaces`: accumulates the current token (reversed). -/
def splitSpacesAux : List Char → List Char → List String
  | [], acc => if acc.isEmpty then [] else [ofChars acc.reverse]
  | c :: rest, acc =>
    if c = ' ' then
      if acc.isEmpty then splitSpacesAux rest []
      else ofChars acc.reverse :: splitSpacesAux rest []
    else splitSpacesAux rest (c :: acc)

/-- `re.split(" +", s)` for a string with no leading/trailing spaces (all
call sites strip first): the maximal space-free tokens. -/
def pySplitSpaces (s : String) : List String := splitSpacesAux s.data []

/-- Digits of a decimal literal. -/
def decDigits? : List Char → Option ℕ
  | [] => none
  | cs => cs.foldl (fun acc c => match acc with
      | none => none
      | some a => if c.isDigit then some (a * 10 + (c.toNat - 48)) else none)
      (some 0)

/-- Python `int(s)`: strips whitespace, accepts an optional sign and decimal
digits, raises `ValueError` otherwise. -/
def pyInt (s : String) : Except PyErr Int :=
  match (pyStrip s).data with
  | '-' :: rest => match decDigits? rest with
    | some v => Except.ok (-(v : Int))
    | none => Except.error (PyErr.valueError s)
  | '+' :: rest => match decDigits? rest with
    | some v => Except.ok (v : Int)
    | none => Except.error (PyErr.valueError s)
  | cs => match decDigits? cs with
    | some v => Except.ok (v : Int)
    | none => Except.error (PyErr.valueError s)

/-! ## `importMGH` (fsqcUtils.py lines 10-77)

Reads a big-endian binary volume: 7 big-endian `int32` header words, a
big-endian `int16` RAS flag, an optional `3+9+3`-float RAS block, padding,
then `ndim1*ndim2*ndim3*nframes` big-endian `float32` voxels.  Float words
are kept as their raw 32-bit big-endian bit patterns (the function never
computes with them).  If the file does not exist the function warns and
returns `numpy.nan`; the warning list is part of the model's result. -/

/-- Big-endian unsigned value of a byte list. -/
def beUInt (bs : List UInt8) : ℕ := bs.foldl (fun a b => a * 256 + b.toNat) 0

/-- `struct.unpack(">i", ·)`: big-endian signed 32-bit integer. -/
def beInt32 (bs : List UInt8) : Int :=
  if beUInt bs < 2 ^ 31 then (beUInt bs : Int) else (beUInt bs : Int) - 2 ^ 32

/-- `struct.unpack(">h", ·)`: big-endian signed 16-bit integer. -/
def beInt16 (bs : List UInt8) : Int :=
  if beUInt bs < 2 ^ 15 then (beUInt bs : Int) else (beUInt bs : Int) - 2 ^ 16

/-- `struct.unpack` on `fp.read(k)`: yields `k` bytes and the rest, or
raises `struct.error` when fewer than `k` bytes remain. -/
def readBytes (k : ℕ) (bs : List UInt8) : Except PyErr (List UInt8 × List UInt8) :=
  if k ≤ bs.length then Except.ok (bs.take k, bs.drop k) else Except.error PyErr.structError

/-- Split into consecutive 4-byte words (a trailing fragment is dropped;
callers check divisibility by 4 first). -/
def chunk4 : List UInt8 → List (List UInt8)
  | a :: b :: c :: d :: rest => [a, b, c, d] :: chunk4 rest
  | _ => []

/-- The parsed volume: header fields, optional raw RAS block, and the voxel
data as raw big-endian `float32` bit patterns with the reshape dimensions. -/
structure MGHVol where
  version : Int
  ndim1 : Int
  ndim2 : Int
  ndim3 : Int
  nframes : Int
  vtype : Int
  dof : Int
  rasGoodFlag : Int
  rasBlock : Option (List ℕ)
  data : List ℕ
deriving DecidableEq

/-- Result of `importMGH`: either `numpy.nan` (missing file) or a volume. -/
inductive MGHResult
  | nanSentinel
  | vol (m : MGHVol)
deriving DecidableEq

/-- The body of `importMGH` after the file was opened. -/
def readMGH (bs : List UInt8) : Except PyErr MGHVol := do
  let (b1, r1) ← readBytes 4 bs
  let (b2, r2) ← readBytes 4 r1
  let (b3, r3) ← readBytes 4 r2
  let (b4, r4) ← readBytes 4 r3
  let (b5, r5) ← readBytes 4 r4
  let (b6, r6) ← readBytes 4 r5
  let (b7, r7) ← readBytes 4 r6
  let version := beInt32 b1
  let ndim1 := beInt32 b2
  let ndim2 := beInt32 b3
  let ndim3 := beInt32 b4
  let nframes := beInt32 b5
  let vtype := beInt32 b6
  let dof := beInt32 b7
  let (bf, r8) ← readBytes 2 r7
  let ras_good_flag := beInt16 bf
  let (rasBlock, r9) ←
    if ras_good_flag ≠ 0 then do
      let (fb, r) ← readBytes (4 * 3 + 4 * 9 + 4 * 3) r8
      Except.ok (some ((chunk4 fb).map beUInt), r)
    else Except.ok ((none : Option (List ℕ)), r8)
  let (_, r10) ← readBytes (256 - 2 - ((3 * 4) + (4 * 3 * 4))) r9
  let nv : Int := ndim1 * ndim2 * ndim3 * nframes
  let want : Int := 4 * nv
  let takeN : ℕ := if want < 0 then r10.length else min want.toNat r10.length
  let dataBytes := r10.take takeN
  if dataBytes.length % 4 ≠ 0 then
    Except.error (PyErr.valueError "buffer size must be a multiple of element size")
  else
    let words := (chunk4 dataBytes).map beUInt
    if (words.length : Int) ≠ nv then
      Except.error (PyErr.valueError "cannot reshape array")
    else
      Except.ok { version := version, ndim1 := ndim1, ndim2 := ndim2, ndim3 := ndim3,
                  nframes := nframes, vtype := vtype, dof := dof,
                  rasGoodFlag := ras_good_flag, rasBlock := rasBlock, data := words }

/-- `importMGH(filename)`.  `fs` models the filesystem (`None` = missing
file).  Returns the list of issued warnings together with the outcome. -/
def importMGH (fs : String → Option (List UInt8)) (filename : String) :
    List String × Except PyErr MGHResult :=
  match fs filename with
  | none =>
    (["WARNING: could not find " ++ filename ++ ", returning NaNs"],
     Except.ok MGHResult.nanSentinel)
  | some bs => ([], (readMGH bs).map MGHResult.vol)

/-! ## `readLTA` (fsqcUtils.py lines 154-308)

A line-oriented parse of the `.lta` affine-transform text format into a
dictionary.  Lines are as produced by `readlines()` (one entry per line).
Numeric `float` fields are stored as their raw whitespace-split tokens (the
function only stores them; nothing in this development computes with them).
The 4×4 matrix block is recognized by the anchored regular expression
`(-*[0-9]\.\S+\W+){4}`, implemented below as a backtracking matcher. -/

/-- `\w` (ASCII): letter, digit or underscore. -/
def isWordChar (c : Char) : Bool := c.isAlphanum || c = '_'

/-- Tokens of the fixed matrix-row regular expression. -/
inductive RTok
  | dashStar
  | digitOne
  | dotOne
  | nonSpacePlus
  | nonWordPlus

/-- Backtracking matcher for a sequence of `RTok` at the start of the
character list (the semantics of an anchored `re.match`), with a structural
fuel.  Every recursive call strictly decreases `ps.length + cs.length`, so
the fuel `ps.length + cs.length + 1` supplied by `reMatchToks` is always
sufficient and the `fuel = 0` branch is unreachable. -/
def reMatchFuel : ℕ → List RTok → List Char → Bool
  | 0, _, _ => false
  | _ + 1, [], _ => true
  | fuel + 1, RTok.dashStar :: ps, cs =>
    reMatchFuel fuel ps cs ||
      (match cs with
       | '-' :: cs2 => reMatchFuel fuel (RTok.dashStar :: ps) cs2
       | _ => false)
  | fuel + 1, RTok.digitOne :: ps, cs =>
    (match cs with
     | c :: cs2 => c.isDigit && reMatchFuel fuel ps cs2
     | [] => false)
  | fuel + 1, RTok.dotOne :: ps, cs =>
    (match cs with
     | c :: cs2 => decide (c = '.') && reMatchFuel fuel ps cs2
     | [] => false)
  | fuel + 1, RTok.nonSpacePlus :: ps, cs =>
    (match cs with
     | c :: cs2 =>
       !c.isWhitespace && (reMatchFuel fuel ps cs2 || reMatchFuel fuel (RTok.nonSpacePlus :: ps) cs2)
     | [] => false)
  | fuel + 1, RTok.nonWordPlus :: ps, cs =>
    (match cs with
     | c :: cs2 =>
       !isWordChar c && (reMatchFuel fuel ps cs2 || reMatchFuel fuel (RTok.nonWordPlus :: ps) cs2)
     | [] => false)

/-- Anchored match of a token sequence with sufficient fuel. -/
def reMatchToks (ps : List RTok) (cs : List Char) : Bool :=
  reMatchFuel (ps.length + cs.length + 1) ps cs

/-- One `-*[0-9]\.\S+\W+` group. -/
def matrixGroup : List RTok :=
  [RTok.dashStar, RTok.digitOne, RTok.dotOne, RTok.nonSpacePlus, RTok.nonWordPlus]

/-- `re.match("-*[0-9]\.\S+\W+-*[0-9]\.\S+\W+-*[0-9]\.\S+\W+-*[0-9]\.\S+\W+", line)`. -/
def isMatrixRow (line : String) : Bool :=
  reMatchToks (matrixGroup ++ matrixGroup ++ matrixGroup ++ matrixGroup) line.data

/-- The parsed `.lta` dictionary `d`.  Absent keys are `none`. -/
structure LTADict where
  type? : Option Int := none
  nxforms? : Option Int := none
  mean? : Option (List String) := none
  sigmaVal? : Option String := none
  lta? : Option (List (List String)) := none
  src_valid? : Option Int := none
  src_filename? : Option (List String) := none
  src_volume? : Option (List Int) := none
  src_voxelsize? : Option (List String) := none
  src_xras? : Option (List String) := none
  src_yras? : Option (List String) := none
  src_zras? : Option (List String) := none
  src_cras? : Option (List String) := none
  dst_valid? : Option Int := none
  dst_filename? : Option (List String) := none
  dst_volume? : Option (List Int) := none
  dst_voxelsize? : Option (List String) := none
  dst_xras? : Option (List String) := none
  dst_yras? : Option (List String) := none
  dst_zras? : Option (List String) := none
  dst_cras? : Option (List String) := none
  src? : Option (List String × List String × List String × List String) := none
  dst? : Option (List String × List String × List String × List String) := none
deriving DecidableEq

/-- `int(re.sub("=", "", re.sub("[a-z]+", "", re.sub("#.*", "", line))).strip())`. -/
def ltaKeyInt (line : String) : Except PyErr Int :=
  pyInt (subEquals (subLowercase (subHashComment line)))

/-- `re.split(" +", re.sub("=", "", re.sub("[a-z]+", "", re.sub("#.*", "", line))).strip())`. -/
def ltaKeyTokens (line : String) : List String :=
  pySplitSpaces (pyStrip (subEquals (subLowercase (subHashComment line))))

/-- `re.sub("=", "", re.sub("[a-z]+", "", re.sub("#.*", "", line))).strip()` (the
`sigma` field, a single `float` literal kept raw). -/
def ltaKeyRaw (line : String) : String :=
  pyStrip (subEquals (subLowercase (subHashComment line)))

/-- `re.split(" +", re.sub(".*=", "", re.sub("#.*", "", line)).strip())` (volume-info
block fields). -/
def ltaFieldTokens (line : String) : List String :=
  pySplitSpaces (pyStrip (subUpToEq (subHashComment line)))

/-- `int(re.sub(".*=", "", re.sub("#.*", "", line)).strip())` (the `valid` field). -/
def ltaFieldInt (line : String) : Except PyErr Int :=
  pyInt (subUpToEq (subHashComment line))

/-- One iteration of the `src volume info` inner loop on one line. -/
def srcFieldStep (line : String) (d : LTADict) : Except PyErr LTADict :=
  if pyMatchLit "valid" line then do
    let v ← ltaFieldInt line
    Except.ok { d with src_valid? := some v }
  else if pyMatchLit "filename" line then
    Except.ok { d with src_filename? := some (ltaFieldTokens line) }
  else if pyMatchLit "volume" line then do
    let vs ← (ltaFieldTokens line).mapM pyInt
    Except.ok { d with src_volume? := some vs }
  else if pyMatchLit "voxelsize" line then
    Except.ok { d with src_voxelsize? := some (ltaFieldTokens line) }
  else if pyMatchLit "xras" line then
    Except.ok { d with src_xras? := some (ltaFieldTokens line) }
  else if pyMatchLit "yras" line then
    Except.ok { d with src_yras? := some (ltaFieldTokens line) }
  else if pyMatchLit "zras" line then
    Except.ok { d with src_zras? := some (ltaFieldTokens line) }
  else if pyMatchLit "cras" line then
    Except.ok { d with src_cras? := some (ltaFieldTokens line) }
  else Except.ok d

/-- One iteration of the `dst volume info` inner loop on one line. -/
def dstFieldStep (line : String) (d : LTADict) : Except PyErr LTADict :=
  if pyMatchLit "valid" line then do
    let v ← ltaFieldInt line
    Except.ok { d with dst_valid? := some v }
  else if pyMatchLit "filename" line then
    Except.ok { d with dst_filename? := some (ltaFieldTokens line) }
  else if pyMatchLit "volume" line then do
    let vs ← (ltaFieldTokens line).mapM pyInt
    Except.ok { d with dst_volume? := some vs }
  else if pyMatchLit "voxelsize" line then
    Except.ok { d with dst_voxelsize? := some (ltaFieldTokens line) }
  else if pyMatchLit "xras" line then
    Except.ok { d with dst_xras? := some (ltaFieldTokens line) }
  else if pyMatchLit "yras" line then
    Except.ok { d with dst_yras? := some (ltaFieldTokens line) }
  else if pyMatchLit "zras" line then
    Except.ok { d with dst_zras? := some (ltaFieldTokens line) }
  else if pyMatchLit "cras" line then
    Except.ok { d with dst_cras? := some (ltaFieldTokens line) }
  else Except.ok d

/-- Position of the parse inside the `while i < len(lta)` loop: at top
level, inside the `src volume info` inner loop, or inside the
`dst volume info` inner loop.  The inner `while` loops of the source consume
lines from the same index `i`; when one exits at the other block's header,
the outer loop re-dispatches on that header line.  This is rendered as a
single pass over the line stream carrying the current mode. -/
inductive LTAMode
  | top
  | inSrc
  | inDst

/-- The `while i < len(lta)` loop of `readLTA`, one line per step.  In `top`
mode the `type`/`nxforms`/`mean`/`sigma`/matrix-block/volume-info-header
branches apply (an unmatched line is skipped); in `inSrc`/`inDst` mode the
volume-info field branches apply until the opposite header is seen.  A
volume-info header line itself matches none of the field patterns, exactly
as in the source where the inner loop starts at the header's own index. -/
def readLTAloop : LTAMode → List String → LTADict → Except PyErr LTADict
  | _, [], d => Except.ok d
  | LTAMode.top, line :: rest, d =>
    if pyMatchLit "type" line then do
      let v ← ltaKeyInt line
      readLTAloop LTAMode.top rest { d with type? := some v }
    else if pyMatchLit "nxforms" line then do
      let v ← ltaKeyInt line
      readLTAloop LTAMode.top rest { d with nxforms? := some v }
    else if pyMatchLit "mean" line then
      readLTAloop LTAMode.top rest { d with mean? := some (ltaKeyTokens line) }
    else if pyMatchLit "sigma" line then
      readLTAloop LTAMode.top rest { d with sigmaVal? := some (ltaKeyRaw line) }
    else if isMatrixRow line then
      match rest with
      | r2 :: r3 :: r4 :: rest2 =>
        if isMatrixRow r2 && isMatrixRow r3 && isMatrixRow r4 then
          readLTAloop LTAMode.top rest2
            { d with lta? := some [pySplitSpaces (pyStrip line), pySplitSpaces (pyStrip r2),
                                   pySplitSpaces (pyStrip r3), pySplitSpaces (pyStrip r4)] }
        else Except.error PyErr.attributeError
      | _ => Except.error PyErr.indexError
    else if pyMatchLit "src volume info" line then do
      let d2 ← srcFieldStep line d
      readLTAloop LTAMode.inSrc rest d2
    else if pyMatchLit "dst volume info" line then do
      let d2 ← dstFieldStep line d
      readLTAloop LTAMode.inDst rest d2
    else readLTAloop LTAMode.top rest d
  | LTAMode.inSrc, line :: rest, d =>
    if pyMatchLit "dst volume info" line then do
      let d2 ← dstFieldStep line d
      readLTAloop LTAMode.inDst rest d2
    else do
      let d2 ← srcFieldStep line d
      readLTAloop LTAMode.inSrc rest d2
  | LTAMode.inDst, line :: rest, d =>
    if pyMatchLit "src volume info" line then do
      let d2 ← srcFieldStep line d
      readLTAloop LTAMode.inSrc rest d2
    else do
      let d2 ← dstFieldStep line d
      readLTAloop LTAMode.inDst rest d2

/-- `d[key]`: dictionary lookup, `KeyError` when the key is absent. -/
def getKey {α : Type} (key : String) : Option α → Except PyErr α
  | some a => Except.ok a
  | none => Except.error (PyErr.keyError key)

/-- `readLTA(file)`: parse the lines, then unconditionally build the full
`src` and `dst` transform matrices from the `*_xras`/`*_yras`/`*_zras`/
`*_cras` fields (a `KeyError` when any is absent). -/
def readLTA (lines : List String) : Except PyErr LTADict := do
  let d ← readLTAloop LTAMode.top lines {}
  let sx ← getKey "src_xras" d.src_xras?
  let sy ← getKey "src_yras" d.src_yras?
  let sz ← getKey "src_zras" d.src_zras?
  let sc ← getKey "src_cras" d.src_cras?
  let dx ← getKey "dst_xras" d.dst_xras?
  let dy ← getKey "dst_yras" d.dst_yras?
  let dz ← getKey "dst_zras" d.dst_zras?
  let dc ← getKey "dst_cras" d.dst_cras?
  Except.ok { d with src? := some (sx, sy, sz, sc), dst? := some (dx, dy, dz, dc) }

/-! ## `applyTransform` (fsqcUtils.py lines 104-149)

Loads an image (external `nibabel`, modelled as an abstract image type),
dispatches on the matrix-file extension, reads the `.lta` transform, rejects
everything except parsed `type == 0`, resamples (external
`scipy.ndimage.affine_transform`, kept symbolic) and writes the output
image.  The returned list records the file writes performed. -/

/-- Model of the resampled output image: the loaded source image, the raw
token rows of the voxel-to-voxel matrix `m` (to which `np.linalg.inv` is
applied, kept symbolic), and the spline order (0 = nearest, 3 = cubic). -/
structure TransformedImg (Img : Type) where
  source : Img
  mRows : List (List String)
  order : ℕ

/-- A file write performed by `applyTransform` (`nb.save`). -/
inductive FileWrite (Img : Type)
  | save (path : String) (img : TransformedImg Img)

/-- `os.path.splitext(path)[1]`: the extension of the final path component
(from its last dot, provided a non-dot character precedes it). -/
def splitextExt (path : String) : String :=
  let base := (path.data.reverse.takeWhile (fun c => c ≠ '/')).reverse
  if base.contains '.' then
    let extRev := base.reverse.takeWhile (fun c => c ≠ '.')
    let stem := base.take (base.length - extRev.length - 1)
    if stem.any (fun c => c ≠ '.') then ofChars ('.' :: extRev.reverse) else ""
  else ""

/-- `applyTransform(img_file, out_file, mat_file, interp)`.  `readlines`
models reading a text file's lines; `load` models `nib.load` over an
abstract image type. -/
def applyTransform {Img : Type} (readlines : String → List String)
    (load : String → Img) (img_file out_file mat_file interp : String) :
    Except PyErr (List (FileWrite Img)) :=
  let img := load img_file
  let ext := splitextExt mat_file
  if ext = ".xfm" then
    Except.error (PyErr.exception
      "ERROR: xfm matrices not (yet) supported. Please convert to lta format")
  else if ext = ".lta" then do
    let lta ← readLTA (readlines mat_file)
    let tval ← getKey "type" lta.type?
    if tval = 1 then
      Except.error (PyErr.exception "ERROR: lta type 1 (ras2ras) not supported yet")
    else do
      let m? ←
        if tval = 0 then do
          let m ← getKey "lta" lta.lta?
          Except.ok (some m)
        else Except.ok (none : Option (List (List String)))
      if interp = "nearest" then
        match m? with
        | some m => Except.ok [FileWrite.save out_file ⟨img, m, 0⟩]
        | none => Except.error (PyErr.unboundLocalError "m")
      else if interp = "cubic" then
        match m? with
        | some m => Except.ok [FileWrite.save out_file ⟨img, m, 3⟩]
        | none => Except.error (PyErr.unboundLocalError "m")
      else Except.error (PyErr.exception "ERROR: interpolation must be either nearest or cubic")
  else Except.error (PyErr.exception "ERROR: matrices must be either xfm or lta format")

/-! ## Concrete inputs used by counterexamples and witnesses -/

/-- A mesh consisting of one zero-area triangle: three collinear vertices. -/
noncomputable def degVerts : Fin 3 → V3 := ![(0, 0, 0), (1, 0, 0), (2, 0, 0)]

/-- Its single (degenerate) triangle. -/
def degTris : List (Fin 3 × Fin 3 × Fin 3) := [((0 : Fin 3), 1, 2)]

/-- A mesh with one proper triangle and one zero-area triangle. -/
noncomputable def mixVerts : Fin 4 → V3 := ![(0, 0, 0), (1, 0, 0), (0, 1, 0), (2, 0, 0)]

/-- Its triangles: `(0,1,2)` has `4×area = 2`; `(0,1,3)` is degenerate. -/
def mixTris : List (Fin 4 × Fin 4 × Fin 4) := [((0 : Fin 4), 1, 2), ((0 : Fin 4), 1, 3)]

/-- A non-degenerate 3-vertex triangle mesh (the unit right triangle), on
which `laplaceTria` completes assembly and factorization. -/
noncomputable def solverVerts3 : Fin 3 → V3 := ![(0, 0, 0), (1, 0, 0), (0, 1, 0)]

/-- Its single triangle. -/
def solverTris3 : List (Fin 3 × Fin 3 × Fin 3) := [((0 : Fin 3), 1, 2)]

/-- A non-degenerate 4-vertex mesh (the unit tetrahedron's corners). -/
noncomputable def solverVerts4 : Fin 4 → V3 := ![(0, 0, 0), (1, 0, 0), (0, 1, 0), (0, 0, 1)]

/-- Two non-degenerate triangles covering all four vertices. -/
def solverTris4 : List (Fin 4 × Fin 4 × Fin 4) := [((0 : Fin 4), 1, 2), ((0 : Fin 4), 1, 3)]

/-- The unit tetrahedron. -/
def solverTets4 : List (Tet 4) := [((0 : Fin 4), 1, 2, 3)]

/-- Lines of a small RAS-to-RAS (`type = 1`) `.lta` transform file, as from
`readlines()`. -/
def c9lines : List String :=
  ["type      = 1",
   "src volume info",
   "xras   = 1.0 0.0 0.0",
   "yras   = 0.0 1.0 0.0",
   "zras   = 0.0 0.0 1.0",
   "cras   = 0.0 0.0 0.0",
   "dst volume info",
   "xras   = 1.0 0.0 0.0",
   "yras   = 0.0 1.0 0.0",
   "zras   = 0.0 0.0 1.0",
   "cras   = 0.0 0.0 0.0"]

/-- The dictionary `readLTA` produces for `c9lines`. -/
def c9dict : LTADict :=
  { type? := some 1,
    src_xras? := some ["1.0", "0.0", "0.0"],
    src_yras? := some ["0.0", "1.0", "0.0"],
    src_zras? := some ["0.0", "0.0", "1.0"],
    src_cras? := some ["0.0", "0.0", "0.0"],
    dst_xras? := some ["1.0", "0.0", "0.0"],
    dst_yras? := some ["0.0", "1.0", "0.0"],
    dst_zras? := some ["0.0", "0.0", "1.0"],
    dst_cras? := some ["0.0", "0.0", "0.0"],
    src? := some (["1.0", "0.0", "0.0"], ["0.0", "1.0", "0.0"],
                  ["0.0", "0.0", "1.0"], ["0.0", "0.0", "0.0"]),
    dst? := some (["1.0", "0.0", "0.0"], ["0.0", "1.0", "0.0"],
                  ["0.0", "0.0", "1.0"], ["0.0", "0.0", "0.0"]) }

/-! ## Shared lemmas about the scatter combinators -/

lemma pairEntry_symm {n : ℕ} (i j a b : Fin n) (x : ℝ) :
    pairEntry i j a b x = pairEntry j i a b x := by
  unfold pairEntry
  by_cases h1 : a = i <;> by_cases h2 : b = j <;> by_cases h3 : b = i <;> by_cases h4 : a = j <;>
    simp [h1, h2, h3, h4, add_comm, and_comm, eq_comm]

lemma diagEntry_symm {n : ℕ} (i j a : Fin n) (x : ℝ) :
    diagEntry i j a x = diagEntry j i a x := by
  unfold diagEntry
  by_cases h1 : a = i <;> by_cases h2 : a = j <;> simp [h1, h2]

lemma sum_ite_and_eq {n : ℕ} (i c d : Fin n) (y : ℝ) :
    (∑ j, if c = i ∧ d = j then y else 0) = (if c = i then y else 0) := by
  by_cases h : c = i
  · simp [h, Finset.sum_ite_eq]
  · simp [h]

lemma sum_pairEntry {n : ℕ} (i a b : Fin n) (x : ℝ) :
    (∑ j, pairEntry i j a b x) = (if a = i then x else 0) + (if b = i then x else 0) := by
  unfold pairEntry
  rw [Finset.sum_add_distrib, sum_ite_and_eq, sum_ite_and_eq]

lemma sum_diagEntry {n : ℕ} (i a : Fin n) (x : ℝ) :
    (∑ j, diagEntry i j a x) = (if a = i then x else 0) := by
  unfold diagEntry
  rw [sum_ite_and_eq]

lemma sum_fin_listSum {α : Type} {n : ℕ} (l : List α) (g : α → Fin n → ℝ) :
    (∑ j, (l.map (fun a => g a j)).sum) = (l.map (fun a => ∑ j, g a j)).sum := by
  induction l with
  | nil => simp
  | cons a l ih => simp [Finset.sum_add_distrib, ih]

lemma listSum_map_congr {α : Type} (l : List α) (f g : α → ℝ)
    (h : ∀ a ∈ l, f a = g a) : (l.map f).sum = (l.map g).sum := by
  induction l with
  | nil => rfl
  | cons a l ih =>
    simp only [List.map_cons, List.sum_cons]
    rw [h a (List.mem_cons_self a l), ih (fun b hb => h b (List.mem_cons_of_mem a hb))]

/-! ## Per-element row-sum and symmetry lemmas -/

lemma triLocalA_rowSum {n : ℕ} (v : Fin n → V3) (tri : Fin n × Fin n × Fin n)
    (gvol : ℝ) (i : Fin n) : (∑ j, triLocalA v tri gvol i j) = 0 := by
  unfold triLocalA
  simp only [Finset.sum_add_distrib, sum_pairEntry, sum_diagEntry]
  by_cases h1 : tri.1 = i <;> by_cases h2 : tri.2.1 = i <;> by_cases h3 : tri.2.2 = i <;>
    simp [h1, h2, h3, triA11, triA22, triA33] <;> ring

lemma tetLocalA_rowSum {n : ℕ} (v : Fin n → V3) (tet : Tet n)
    (gvol : ℝ) (i : Fin n) : (∑ j, tetLocalA v tet gvol i j) = 0 := by
  unfold tetLocalA
  simp only [Finset.sum_add_distrib, sum_pairEntry, sum_diagEntry]
  by_cases h1 : tet.1 = i <;> by_cases h2 : tet.2.1 = i <;> by_cases h3 : tet.2.2.1 = i <;>
    by_cases h4 : tet.2.2.2 = i <;>
      simp [h1, h2, h3, h4, tetA11, tetA22, tetA33, tetA44] <;> ring

lemma triLocalA_symm {n : ℕ} (v : Fin n → V3) (tri : Fin n × Fin n × Fin n)
    (gvol : ℝ) (i j : Fin n) : triLocalA v tri gvol i j = triLocalA v tri gvol j i := by
  unfold triLocalA
  rw [pairEntry_symm i j tri.1 tri.2.1, pairEntry_symm i j tri.2.1 tri.2.2,
    pairEntry_symm i j tri.2.2 tri.1, diagEntry_symm i j tri.1,
    diagEntry_symm i j tri.2.1, diagEntry_symm i j tri.2.2]

lemma triLocalB_symm {n : ℕ} (tri : Fin n × Fin n × Fin n)
    (gvol : ℝ) (i j : Fin n) : triLocalB tri gvol i j = triLocalB tri gvol j i := by
  unfold triLocalB
  rw [pairEntry_symm i j tri.1 tri.2.1, pairEntry_symm i j tri.2.1 tri.2.2,
    pairEntry_symm i j tri.2.2 tri.1, diagEntry_symm i j tri.1,
    diagEntry_symm i j tri.2.1, diagEntry_symm i j tri.2.2]

lemma triLocalBlump_symm {n : ℕ} (tri : Fin n × Fin n × Fin n)
    (gvol : ℝ) (i j : Fin n) : triLocalBlump tri gvol i j = triLocalBlump tri gvol j i := by
  unfold triLocalBlump
  rw [diagEntry_symm i j tri.1, diagEntry_symm i j tri.2.1, diagEntry_symm i j tri.2.2]

lemma tetLocalA_symm {n : ℕ} (v : Fin n → V3) (tet : Tet n)
    (gvol : ℝ) (i j : Fin n) : tetLocalA v tet gvol i j = tetLocalA v tet gvol j i := by
  unfold tetLocalA
  rw [pairEntry_symm i j tet.1 tet.2.1, pairEntry_symm i j tet.2.1 tet.2.2.1,
    pairEntry_symm i j tet.2.2.1 tet.1, pairEntry_symm i j tet.1 tet.2.2.2,
    pairEntry_symm i j tet.2.1 tet.2.2.2, pairEntry_symm i j tet.2.2.1 tet.2.2.2,
    diagEntry_symm i j tet.1, diagEntry_symm i j tet.2.1,
    diagEntry_symm i j tet.2.2.1, diagEntry_symm i j tet.2.2.2]

lemma tetLocalB_symm {n : ℕ} (tet : Tet n)
    (gvol : ℝ) (i j : Fin n) : tetLocalB tet gvol i j = tetLocalB tet gvol j i := by
  unfold tetLocalB
  rw [pairEntry_symm i j tet.1 tet.2.1, pairEntry_symm i j tet.2.1 tet.2.2.1,
    pairEntry_symm i j tet.2.2.1 tet.1, pairEntry_symm i j tet.1 tet.2.2.2,
    pairEntry_symm i j tet.2.1 tet.2.2.2, pairEntry_symm i j tet.2.2.1 tet.2.2.2,
    diagEntry_symm i j tet.1, diagEntry_symm i j tet.2.1,
    diagEntry_symm i j tet.2.2.1, diagEntry_symm i j tet.2.2.2]

lemma tetLocalBlump_symm {n : ℕ} (tet : Tet n)
    (gvol : ℝ) (i j : Fin n) : tetLocalBlump tet gvol i j = tetLocalBlump tet gvol j i := by
  unfold tetLocalBlump
  rw [diagEntry_symm i j tet.1, diagEntry_symm i j tet.2.1,
    diagEntry_symm i j tet.2.2.1, diagEntry_symm i j tet.2.2.2]

/-! ## Claim theorems -/

/-- C1: for every triangle mesh and every tetrahedral mesh with in-bounds
vertex indices (and either mass mode), every row of the assembled stiffness
matrix `A` of `computeABtria` / `computeABtetra` sums to zero in exact real
arithmetic: the per-element diagonal values are the negated sums of the
element's off-diagonal values and the additive scatter preserves per-row
totals. -/
theorem stiffness_rowSums_zero {n : ℕ} (v : Fin n → V3)
    (t : List (Fin n × Fin n × Fin n)) (tt : List (Tet n)) (lump : Bool) (i : Fin n) :
    (∑ j, (computeABtria v t lump).1 i j) = 0 ∧
    (∑ j, (computeABtetra v tt lump).1 i j) = 0 := by
  constructor
  · show (∑ j, (t.map (fun tri => triLocalA v tri (triVolGuard v t tri) i j)).sum) = 0
    rw [sum_fin_listSum]
    apply List.sum_eq_zero
    intro x hx
    obtain ⟨tri, _, rfl⟩ := List.mem_map.mp hx
    exact triLocalA_rowSum v tri _ i
  · show (∑ j, (tt.map (fun tet => tetLocalA v tet (tetVolGuard v tt tet) i j)).sum) = 0
    rw [sum_fin_listSum]
    apply List.sum_eq_zero
    intro x hx
    obtain ⟨tet, _, rfl⟩ := List.mem_map.mp hx
    exact tetLocalA_rowSum v tet _ i

/-- C2: for every triangle mesh and every tetrahedral mesh with in-bounds
vertex indices, and in both lumped and non-lumped mode, the matrices returned
by `computeABtria` / `computeABtetra` are symmetric (`A[i,j] = A[j,i]` and
`B[i,j] = B[j,i]`): every off-diagonal local value is scattered to both
`(i,j)` and `(j,i)` with the same coefficient. -/
theorem computeAB_symmetric {n : ℕ} (v : Fin n → V3)
    (t : List (Fin n × Fin n × Fin n)) (tt : List (Tet n)) (lump : Bool) (i j : Fin n) :
    (computeABtria v t lump).1 i j = (computeABtria v t lump).1 j i ∧
    (computeABtria v t lump).2 i j = (computeABtria v t lump).2 j i ∧
    (computeABtetra v tt lump).1 i j = (computeABtetra v tt lump).1 j i ∧
    (computeABtetra v tt lump).2 i j = (computeABtetra v tt lump).2 j i := by
  refine ⟨?_, ?_, ?_, ?_⟩
  · exact listSum_map_congr t _ _ (fun tri _ => triLocalA_symm v tri _ i j)
  · refine listSum_map_congr t _ _ (fun tri _ => ?_)
    cases lump
    · simpa using triLocalB_symm tri (triVolGuard v t tri) i j
    · simpa using triLocalBlump_symm tri (triVolGuard v t tri) i j
  · exact listSum_map_congr tt _ _ (fun tet _ => tetLocalA_symm v tet _ i j)
  · refine listSum_map_congr tt _ _ (fun tet _ => ?_)
    cases lump
    · simpa using tetLocalB_symm tet (tetVolGuard v tt tet) i j
    · simpa using tetLocalBlump_symm tet (tetVolGuard v tt tet) i j

/-! ## Mass-matrix lemmas (for C6 and C10) -/

lemma triLocalB_rowSum {n : ℕ} (tri : Fin n × Fin n × Fin n) (gvol : ℝ) (i : Fin n) :
    (∑ j, triLocalB tri gvol i j) = triLocalBlump tri gvol i i := by
  unfold triLocalB triLocalBlump diagEntry
  simp only [Finset.sum_add_distrib, sum_pairEntry, sum_diagEntry, and_self]
  by_cases h1 : tri.1 = i <;> by_cases h2 : tri.2.1 = i <;> by_cases h3 : tri.2.2 = i <;>
    simp [h1, h2, h3] <;> ring

lemma tetLocalB_rowSum {n : ℕ} (tet : Tet n) (gvol : ℝ) (i : Fin n) :
    (∑ j, tetLocalB tet gvol i j) = tetLocalBlump tet gvol i i := by
  unfold tetLocalB tetLocalBlump diagEntry
  simp only [Finset.sum_add_distrib, sum_pairEntry, sum_diagEntry, and_self]
  by_cases h1 : tet.1 = i <;> by_cases h2 : tet.2.1 = i <;> by_cases h3 : tet.2.2.1 = i <;>
    by_cases h4 : tet.2.2.2 = i <;> simp [h1, h2, h3, h4] <;> ring

lemma triLocalB_eq_spec {n : ℕ} (tri : Fin n × Fin n × Fin n) (gvol : ℝ) (i j : Fin n) :
    triLocalB tri gvol i j = specTriaMassConsistent tri gvol i j := by
  unfold triLocalB specTriaMassConsistent
  ring

lemma triLocalBlump_eq_spec {n : ℕ} (tri : Fin n × Fin n × Fin n) (gvol : ℝ) (i j : Fin n) :
    triLocalBlump tri gvol i j =
      if i = j then specTriaMassLumpDiag tri gvol i else 0 := by
  unfold triLocalBlump specTriaMassLumpDiag diagEntry
  by_cases h : i = j
  · simp [h]
  · have h1 : ∀ a : Fin n, ¬(a = i ∧ a = j) := fun a hc => h (hc.1.symm.trans hc.2)
    simp [h, h1]

/-- C10: for every triangle mesh and every tetrahedral mesh with in-bounds
indices, each row sum of the non-lumped mass matrix `B` equals the
corresponding diagonal entry of the lumped-mode mass matrix for the same
mesh (per triangle `vol/24 + 2·vol/48 = vol/12`, per tetrahedron
`vol/60 + 3·vol/120 = vol/24`): both modes assign the same total mass to
every vertex. -/
theorem mass_rowSum_eq_lumped_diagonal {n : ℕ} (v : Fin n → V3)
    (t : List (Fin n × Fin n × Fin n)) (tt : List (Tet n)) (i : Fin n) :
    (∑ j, (computeABtria v t false).2 i j) = (computeABtria v t true).2 i i ∧
    (∑ j, (computeABtetra v tt false).2 i j) = (computeABtetra v tt true).2 i i := by
  constructor
  · show (∑ j, (t.map (fun tri =>
        if false then triLocalBlump tri (triVolGuard v t tri) i j
        else triLocalB tri (triVolGuard v t tri) i j)).sum) = _
    simp only [Bool.false_eq_true, if_false, if_true]
    rw [sum_fin_listSum]
    exact listSum_map_congr t _ _ (fun tri _ => triLocalB_rowSum tri _ i)
  · show (∑ j, (tt.map (fun tet =>
        if false then tetLocalBlump tet (tetVolGuard v tt tet) i j
        else tetLocalB tet (tetVolGuard v tt tet) i j)).sum) = _
    simp only [Bool.false_eq_true, if_false, if_true]
    rw [sum_fin_listSum]
    exact listSum_map_congr tt _ _ (fun tet _ => tetLocalB_rowSum tet _ i)

/-- C6: for every triangle mesh, `computeABtria` in non-lumped mode
assembles `B` from per-triangle contributions of `(4×area)/24` on the local
diagonal positions and `(4×area)/48` on the off-diagonal positions, while in
lumped mode `B` is purely diagonal with one additive contribution of
`(4×area)/12` per vertex per triangle and no off-diagonal entries. -/
theorem mass_matrix_coefficients {n : ℕ} (v : Fin n → V3)
    (t : List (Fin n × Fin n × Fin n)) (i j : Fin n) :
    (computeABtria v t false).2 i j =
      (t.map (fun tri => specTriaMassConsistent tri (triVolGuard v t tri) i j)).sum ∧
    (computeABtria v t true).2 i j =
      (if i = j then
        (t.map (fun tri => specTriaMassLumpDiag tri (triVolGuard v t tri) i)).sum
       else 0) := by
  constructor
  · show (t.map (fun tri =>
        if false then triLocalBlump tri (triVolGuard v t tri) i j
        else triLocalB tri (triVolGuard v t tri) i j)).sum = _
    simp only [Bool.false_eq_true, if_false]
    exact listSum_map_congr t _ _ (fun tri _ => triLocalB_eq_spec tri _ i j)
  · show (t.map (fun tri =>
        if true then triLocalBlump tri (triVolGuard v t tri) i j
        else triLocalB tri (triVolGuard v t tri) i j)).sum = _
    simp only [if_true]
    by_cases h : i = j
    · simp only [h, if_true]
      refine listSum_map_congr t _ _ (fun tri _ => ?_)
      rw [triLocalBlump_eq_spec]
      simp [h]
    · simp only [h, if_false]
      apply List.sum_eq_zero
      intro x hx
      obtain ⟨tri, _, rfl⟩ := List.mem_map.mp hx
      rw [triLocalBlump_eq_spec]
      simp [h]

/-- C5: for every tetrahedron (any four vertex positions and any value of
the guarded volume proxy), each of the six local off-diagonal stiffness
entries scattered by `computeABtetra` for an edge `(i,j)` equals
`((el·ek)(em·ek) − (el·em)(ek·ek)) / (6 × volume proxy)`, where `ek` is the
opposing edge and `el`, `em` run from the opposing edge's start point to
`i` and `j`; and each local diagonal entry equals the negated sum of that
row's three off-diagonal entries. -/
theorem tetra_offdiagonal_formula {n : ℕ} (v : Fin n → V3) (tet : Tet n) (gvol : ℝ) :
    tetA12 v tet gvol / 6 =
      specTetraStiffness (v tet.1) (v tet.2.1) (v tet.2.2.1) (v tet.2.2.2) gvol ∧
    tetA13 v tet gvol / 6 =
      specTetraStiffness (v tet.1) (v tet.2.2.1) (v tet.2.1) (v tet.2.2.2) gvol ∧
    tetA14 v tet gvol / 6 =
      specTetraStiffness (v tet.1) (v tet.2.2.2) (v tet.2.1) (v tet.2.2.1) gvol ∧
    tetA23 v tet gvol / 6 =
      specTetraStiffness (v tet.2.1) (v tet.2.2.1) (v tet.1) (v tet.2.2.2) gvol ∧
    tetA24 v tet gvol / 6 =
      specTetraStiffness (v tet.2.1) (v tet.2.2.2) (v tet.1) (v tet.2.2.1) gvol ∧
    tetA34 v tet gvol / 6 =
      specTetraStiffness (v tet.2.2.1) (v tet.2.2.2) (v tet.1) (v tet.2.1) gvol ∧
    tetA11 v tet gvol / 6 =
      -(tetA12 v tet gvol / 6 + tetA13 v tet gvol / 6 + tetA14 v tet gvol / 6) ∧
    tetA22 v tet gvol / 6 =
      -(tetA12 v tet gvol / 6 + tetA23 v tet gvol / 6 + tetA24 v tet gvol / 6) ∧
    tetA33 v tet gvol / 6 =
      -(tetA13 v tet gvol / 6 + tetA23 v tet gvol / 6 + tetA34 v tet gvol / 6) ∧
    tetA44 v tet gvol / 6 =
      -(tetA14 v tet gvol / 6 + tetA24 v tet gvol / 6 + tetA34 v tet gvol / 6) := by
  refine ⟨?_, ?_, ?_, ?_, ?_, ?_, ?_, ?_, ?_, ?_⟩ <;>
    simp only [tetA12, tetA13, tetA14, tetA23, tetA24, tetA34, tetA11, tetA22, tetA33,
      tetA44, specTetraStiffness, tetE1, tetE2, tetE3, tetE4, tetE5, tetE6, dot3, vsub] <;>
    ring

/-! ## Degenerate-triangle guard (C4)

In the real-valued model, "no division-by-zero error and all stored entries
finite" is rendered as: the guarded divisor `triVolGuard` of every triangle
is nonzero (the code divides the edge dot products by it; in floating point
a zero divisor produces `inf`/`nan` entries).  The guard substitutes
`0.0001 * mean(vol)`, which is itself `0` when every triangle of the mesh is
degenerate — the one-degenerate-triangle mesh below is such a mesh, so the
universally quantified claim fails there. -/

lemma triVol_nonneg {n : ℕ} (v : Fin n → V3) (tri : Fin n × Fin n × Fin n) :
    0 ≤ triVol v tri := by
  unfold triVol
  positivity

lemma epsFloat_pos : 0 < epsFloat := by
  unfold epsFloat
  norm_num

lemma triVolMean_pos {n : ℕ} (v : Fin n → V3) (t : List (Fin n × Fin n × Fin n))
    (h : ∃ tr ∈ t, 0 < triVol v tr) : 0 < triVolMean v t := by
  obtain ⟨tr, htr, hpos⟩ := h
  have hnn : ∀ x ∈ t.map (triVol v), 0 ≤ x := by
    intro x hx
    obtain ⟨a, _, rfl⟩ := List.mem_map.mp hx
    exact triVol_nonneg v a
  have hle : triVol v tr ≤ (t.map (triVol v)).sum :=
    List.single_le_sum hnn _ (List.mem_map_of_mem _ htr)
  have hsum : 0 < (t.map (triVol v)).sum := lt_of_lt_of_le hpos hle
  have hlen : 0 < (t.length : ℝ) := by
    have hne : t ≠ [] := by rintro rfl; simp at htr
    exact_mod_cast List.length_pos.mpr hne
  unfold triVolMean
  exact mul_pos (by norm_num) (div_pos hsum hlen)

/-- C4 (counterexample): the claim "every triangle mesh containing a
zero-area triangle yields finite matrices" fails on the mesh whose only
triangle is degenerate: its `4×area` is `0`, the mean-based substitute is
`0.0001 * 0 = 0`, so the guarded divisor is exactly `0` and the code divides
by zero (producing non-finite `inf`/`nan` stiffness entries). -/
theorem degenerate_guard_counterexample :
    ((0 : Fin 3), (1 : Fin 3), (2 : Fin 3)) ∈ degTris ∧
    triVol degVerts ((0 : Fin 3), 1, 2) = 0 ∧
    triVolGuard degVerts degTris ((0 : Fin 3), 1, 2) = 0 := by
  have hv : triVol degVerts ((0 : Fin 3), 1, 2) = 0 := by
    unfold triVol triCross degVerts
    norm_num [cross3, vsub, dot3, Matrix.cons_val_zero, Matrix.cons_val_one, Matrix.head_cons,
      Matrix.cons_val_two, Matrix.tail_cons, Real.sqrt_zero]
  refine ⟨by decide, hv, ?_⟩
  unfold triVolGuard triVolMean degTris
  rw [hv]
  simp [epsFloat_pos, hv]

/-- C4 (amended): for every triangle mesh with in-bounds indices that
contains a zero-area triangle *and at least one triangle of positive
`4×area`*, `computeABtria` raises no division-by-zero error and every stored
entry is finite: any `4×area` below machine epsilon is replaced by
`mean-of-areas × 1e-4` before being used as a divisor, and under the added
hypothesis every guarded divisor is strictly positive. -/
theorem degenerate_guard_amended {n : ℕ} (v : Fin n → V3)
    (t : List (Fin n × Fin n × Fin n))
    (_hzero : ∃ tr ∈ t, triVol v tr = 0)
    (hpos : ∃ tr ∈ t, 0 < triVol v tr) :
    (∀ tr ∈ t, triVol v tr < epsFloat → triVolGuard v t tr = triVolMean v t) ∧
    (∀ tr ∈ t, 0 < triVolGuard v t tr) := by
  have hmean : 0 < triVolMean v t := triVolMean_pos v t hpos
  constructor
  · intro tr _ hlt
    unfold triVolGuard
    rw [if_pos hlt]
  · intro tr _
    unfold triVolGuard
    by_cases hlt : triVol v tr < epsFloat
    · rw [if_pos hlt]; exact hmean
    · rw [if_neg hlt]; exact lt_of_lt_of_le epsFloat_pos (not_lt.mp hlt)

/-- C4 (witness): the amended guard theorem applied to the mixed mesh; the
degenerate triangle's guarded divisor is strictly positive. -/
theorem degenerate_guard_witness :
    (∃ tr ∈ mixTris, triVol mixVerts tr = 0) ∧
    (∃ tr ∈ mixTris, 0 < triVol mixVerts tr) ∧
    0 < triVolGuard mixVerts mixTris ((0 : Fin 4), 1, 3) := by
  have h0 : triVol mixVerts ((0 : Fin 4), 1, 3) = 0 := by
    unfold triVol triCross mixVerts
    norm_num [cross3, vsub, dot3, Matrix.cons_val_zero, Matrix.cons_val_one, Matrix.head_cons,
      Matrix.cons_val_two, Matrix.cons_val_three, Matrix.tail_cons, Real.sqrt_zero]
  have h2 : triVol mixVerts ((0 : Fin 4), 1, 2) = 2 := by
    unfold triVol triCross mixVerts
    norm_num [cross3, vsub, dot3, Matrix.cons_val_zero, Matrix.cons_val_one, Matrix.head_cons,
      Matrix.cons_val_two, Matrix.tail_cons, Real.sqrt_one]
  have hzero : ∃ tr ∈ mixTris, triVol mixVerts tr = 0 :=
    ⟨((0 : Fin 4), 1, 3), by decide, h0⟩
  have hpos : ∃ tr ∈ mixTris, 0 < triVol mixVerts tr :=
    ⟨((0 : Fin 4), 1, 2), by decide, by rw [h2]; norm_num⟩
  exact ⟨hzero, hpos,
    (degenerate_guard_amended mixVerts mixTris hzero hpos).2 _ (by decide)⟩

/-! ## Solver-entry parameter handling (C3) and backend transparency (C7) -/

/-- C3 (counterexample): the claim "for `k ≥ n_vertices` the solver entry
points fail with an `InvalidParameterError` before attempting the shifted
factorization and eigensolve" is false: `laplaceTria` contains no validation
of `k` at all.  On the non-degenerate one-triangle mesh over 3 vertices with
`k = 3` it assembles `(A, M)`, factorizes `A - sigma*M`, and only then fails
inside the external `eigsh` with scipy's `ValueError` — the factorization is
attempted, and no `InvalidParameterError` is raised. -/
theorem solver_k_validation_counterexample :
    (laplaceTria false solverVerts3 solverTris3 3 false).outcome =
      Except.error SolverError.scipyValueError ∧
    SolverEvent.factorizeShift ∈
      (laplaceTria false solverVerts3 solverTris3 3 false).events ∧
    SolverError.scipyValueError ≠ SolverError.invalidParameterError := by
  refine ⟨by decide, by decide, by decide⟩

/-- C3 (amended): `laplaceTria` and `laplaceTetra` perform no validation of
`k`; for every input with a nonempty cell list (so that the numpy assembly
itself does not crash) and `k ≥ n_vertices`, the shifted factorization is
attempted anyway, and the failure is the external eigensolver's
`ValueError`, not an `InvalidParameterError`. -/
theorem solver_k_validation_amended {n : ℕ} (useCholmod : Bool) (v : Fin n → V3)
    (t : List (Fin n × Fin n × Fin n)) (tt : List (Tet n)) (k : ℕ) (lump : Bool)
    (ht : t ≠ []) (htt : tt ≠ []) (hk : n ≤ k) :
    (laplaceTria useCholmod v t k lump).outcome = Except.error SolverError.scipyValueError ∧
    SolverEvent.factorizeShift ∈ (laplaceTria useCholmod v t k lump).events ∧
    (laplaceTetra useCholmod v tt k lump).outcome = Except.error SolverError.scipyValueError ∧
    SolverEvent.factorizeShift ∈ (laplaceTetra useCholmod v tt k lump).events := by
  have hte : t.isEmpty = false := by
    cases t with
    | nil => exact absurd rfl ht
    | cons a l => rfl
  have htte : tt.isEmpty = false := by
    cases tt with
    | nil => exact absurd rfl htt
    | cons a l => rfl
  have hnot : ¬(0 < k ∧ k < n) := by
    rintro ⟨-, h2⟩
    omega
  refine ⟨?_, ?_, ?_, ?_⟩ <;>
    simp [laplaceTria, laplaceTetra, hte, htte, hnot]

/-- C3 (witness): the amended statement applied to a concrete non-degenerate
4-vertex mesh (two triangles, one tetrahedron) with `k = 4`. -/
theorem solver_k_validation_witness :
    solverTris4 ≠ [] ∧ solverTets4 ≠ [] ∧ 4 ≤ 4 ∧
    ((laplaceTria false solverVerts4 solverTris4 4 false).outcome =
        Except.error SolverError.scipyValueError ∧
      SolverEvent.factorizeShift ∈ (laplaceTria false solverVerts4 solverTris4 4 false).events ∧
      (laplaceTetra false solverVerts4 solverTets4 4 false).outcome =
        Except.error SolverError.scipyValueError ∧
      SolverEvent.factorizeShift ∈
        (laplaceTetra false solverVerts4 solverTets4 4 false).events) :=
  ⟨by decide, by decide, by decide,
   solver_k_validation_amended false solverVerts4 solverTris4 solverTets4 4 false
     (by decide) (by decide) (by decide)⟩

/-- C7: the Cholesky backend (chosen when `sksparse.cholmod` imports) and
the LU fallback both factorize the same shifted matrix `A - sigma*M` with
`sigma = -0.01` and expose its inverse as the eigensolver's `OPinv`; the two
backends produce identical runs — in particular every eigensolver receives
identical arguments, so for the same inputs the eigenvalue/eigenvector
results coincide and the backend choice is transparent to the caller. -/
theorem backend_transparent {n : ℕ} (v : Fin n → V3)
    (t : List (Fin n × Fin n × Fin n)) (tt : List (Tet n)) (k : ℕ) (lump : Bool) :
    laplaceTria true v t k lump = laplaceTria false v t k lump ∧
    laplaceTetra true v tt k lump = laplaceTetra false v tt k lump ∧
    (∀ b, (laplaceTria b v t k lump).sigmaArg = -0.01) ∧
    (∀ b, (laplaceTria b v t k lump).OPinv =
      fun x => (Matrix.of (computeABtria v t lump).1 -
        (-0.01 : ℝ) • Matrix.of (computeABtria v t lump).2)⁻¹.mulVec x) ∧
    (∀ b, (laplaceTetra b v tt k lump).OPinv =
      fun x => (Matrix.of (computeABtetra v tt lump).1 -
        (-0.01 : ℝ) • Matrix.of (computeABtetra v tt lump).2)⁻¹.mulVec x) ∧
    (∀ (R : Type) (eigsh : (Matrix (Fin n) (Fin n) ℝ × ℕ × Matrix (Fin n) (Fin n) ℝ × ℝ ×
        ((Fin n → ℝ) → (Fin n → ℝ))) → R),
      eigsh (eigshArgs (laplaceTria true v t k lump)) =
        eigsh (eigshArgs (laplaceTria false v t k lump)) ∧
      eigsh (eigshArgs (laplaceTetra true v tt k lump)) =
        eigsh (eigshArgs (laplaceTetra false v tt k lump))) := by
  have h1 : laplaceTria true v t k lump = laplaceTria false v t k lump := by
    unfold laplaceTria choleskySolve spluSolve
    simp
  have h2 : laplaceTetra true v tt k lump = laplaceTetra false v tt k lump := by
    unfold laplaceTetra choleskySolve spluSolve
    simp
  refine ⟨h1, h2, fun b => rfl, fun b => ?_, fun b => ?_, fun R eigsh => ⟨by rw [h1], by rw [h2]⟩⟩
  · cases b <;> rfl
  · cases b <;> rfl

/-! ## fsqcUtils claims (C8, C9) -/

/-- C8: for every filename that does not exist on the (modelled) filesystem,
`importMGH` returns the not-a-number sentinel after issuing a warning, and
raises no exception (the outcome is `Except.ok`). -/
theorem importMGH_missing_file (fs : String → Option (List UInt8)) (filename : String)
    (h : fs filename = none) :
    importMGH fs filename =
      (["WARNING: could not find " ++ filename ++ ", returning NaNs"],
       Except.ok MGHResult.nanSentinel) := by
  unfold importMGH
  rw [h]

/-- C8 (witness): `importMGH` on an empty filesystem. -/
theorem importMGH_missing_file_witness :
    (fun _ : String => (none : Option (List UInt8))) "aseg.mgh" = none ∧
    importMGH (fun _ : String => (none : Option (List UInt8))) "aseg.mgh" =
      (["WARNING: could not find " ++ "aseg.mgh" ++ ", returning NaNs"],
       Except.ok MGHResult.nanSentinel) :=
  ⟨rfl, importMGH_missing_file (fun _ => none) "aseg.mgh" rfl⟩

/-- C9: for every `.lta` file whose parsed `type` field equals `1`
(RAS-to-RAS), `applyTransform` (via `readLTA`) raises the explicit
"not supported" error and writes no output; and for every parsed `type`
other than `0` the call errors, so only type-0 (voxel-to-voxel) transforms
proceed. -/
theorem applyTransform_type1_unsupported {Img : Type} (readlines : String → List String)
    (load : String → Img) (img_file out_file mat_file interp : String) (d : LTADict)
    (hext : splitextExt mat_file = ".lta")
    (hread : readLTA (readlines mat_file) = Except.ok d) :
    (d.type? = some 1 →
      applyTransform readlines load img_file out_file mat_file interp =
        Except.error (PyErr.exception "ERROR: lta type 1 (ras2ras) not supported yet") ∧
      ∀ ws, applyTransform readlines load img_file out_file mat_file interp ≠ Except.ok ws) ∧
    (∀ tv, d.type? = some tv → tv ≠ 0 →
      ∃ e, applyTransform readlines load img_file out_file mat_file interp =
        Except.error e) := by
  constructor
  · intro htype
    have hres : applyTransform readlines load img_file out_file mat_file interp =
        Except.error (PyErr.exception "ERROR: lta type 1 (ras2ras) not supported yet") := by
      unfold applyTransform
      rw [hext]
      rw [if_neg (by decide), if_pos rfl]
      simp [hread, htype, getKey, Bind.bind, Except.bind]
    exact ⟨hres, fun ws hws => by rw [hres] at hws; cases hws⟩
  · intro tv htype htv0
    by_cases htv1 : tv = 1
    · subst htv1
      refine ⟨PyErr.exception "ERROR: lta type 1 (ras2ras) not supported yet", ?_⟩
      unfold applyTransform
      rw [hext]
      rw [if_neg (by decide), if_pos rfl]
      simp [hread, htype, getKey, Bind.bind, Except.bind]
    · unfold applyTransform
      rw [hext]
      rw [if_neg (by decide), if_pos rfl]
      simp only [hread, htype, getKey, Bind.bind, Except.bind]
      by_cases hi1 : interp = "nearest"
      · simp [hi1, htv0, htv1, Bind.bind, Except.bind]
      · by_cases hi2 : interp = "cubic"
        · simp [hi1, hi2, htv0, htv1, Bind.bind, Except.bind]
        · simp [hi1, hi2, htv0, htv1, Bind.bind, Except.bind]

/-- C9 (witness): `applyTransform` on a concrete `type = 1` `.lta` file
errors with the explicit "not supported" message. -/
theorem applyTransform_type1_witness :
    splitextExt "make_upright.lta" = ".lta" ∧
    readLTA c9lines = Except.ok c9dict ∧
    c9dict.type? = some 1 ∧
    applyTransform (fun _ => c9lines) (fun _ : String => PUnit.unit) "img.mgz" "out.mgz"
        "make_upright.lta" "nearest" =
      Except.error (PyErr.exception "ERROR: lta type 1 (ras2ras) not supported yet") := by
  have hext : splitextExt "make_upright.lta" = ".lta" := rfl
  have hread : readLTA ((fun _ : String => c9lines) "make_upright.lta") = Except.ok c9dict := by decide
  exact ⟨hext, hread, rfl,
    ((applyTransform_type1_unsupported (fun _ => c9lines) (fun _ : String => PUnit.unit)
      "img.mgz" "out.mgz" "make_upright.lta" "nearest" c9dict hext hread).1 rfl).1⟩
